import Mathlib

/-!
Shallow embedding of the tappad capture/OCR pipeline
(src/modules/camera/CameraManager.ts, src/modules/ocr/OCREngine.ts,
src/modules/ui/OCRInterface.ts, src/utils/errors.ts).

Conventions of the embedding:
* JavaScript character classes are restricted to their ASCII behaviour:
  the regex class `\d` is `Char.isDigit` and `\s` is `Char.isWhitespace`
  (space, tab, CR, LF); `String.prototype.trim` is modelled by `jsTrim`.
* Thrown JavaScript `Error` objects are modelled by their observable
  `name` field (the code dispatches on `error.name` only).
* Asynchronous handlers are modelled as total functions from the
  component state and an environment record (the outcomes of the
  external capabilities they await) to the new state paired with a
  trace of observable events, in the order the source performs them.
-/

/- ===== NumberExtractor (OCRInterface.extractNumberSequences) ===== -/

/-- Character class of the regex `[\d\s+-]` in `extractNumberSequences`. -/
def isSeqChar (c : Char) : Bool :=
  c.isDigit || c.isWhitespace || c = '+' || c = '-'

/-- Drop leading whitespace from a character list (one side of JS `trim`). -/
def dropLeadingWs : List Char → List Char
  | [] => []
  | c :: cs => if c.isWhitespace then dropLeadingWs cs else c :: cs

/-- JavaScript `String.prototype.trim` (ASCII whitespace). -/
def jsTrim (s : String) : String :=
  String.mk ((dropLeadingWs (dropLeadingWs s.data).reverse).reverse)

/-- Split a character list into its maximal runs of `isSeqChar` characters,
in order of appearance.  The accumulator holds the current run reversed. -/
def seqRuns : List Char → List Char → List (List Char)
  | [], acc => if acc.isEmpty then [] else [acc.reverse]
  | c :: cs, acc =>
    if isSeqChar c then seqRuns cs (c :: acc)
    else if acc.isEmpty then seqRuns cs []
    else acc.reverse :: seqRuns cs []

/-- `text.match(/[\d\s+-]{8,}/g)`: the maximal runs of class characters of
length at least 8, left to right. -/
def seqMatches (text : String) : List String :=
  ((seqRuns text.data []).filter (fun r => 8 ≤ r.length)).map String.mk

/-- `OCRInterface.extractNumberSequences`: match runs of at least 8 characters
from the class digit/whitespace/plus/minus, trim each, keep those containing
at least one digit, then keep those whose whitespace-stripped length is at
least 2 (the source comment says "at least 2 digits" but the code counts all
non-whitespace characters, `seq.replace(/\s/g, "").length >= 2`). -/
def extractNumberSequences (text : String) : List String :=
  (((seqMatches text).map jsTrim).filter
      (fun s => s.data.any Char.isDigit)).filter
    (fun s => 2 ≤ (s.data.filter (fun c => !c.isWhitespace)).length)

/-- Number of digit characters in a string, which is what the claim (and the
source comment) count, as opposed to the non-whitespace count the code uses. -/
def digitCount (s : String) : Nat :=
  (s.data.filter Char.isDigit).length

/- ===== CameraManager ===== -/

/-- Camera error taxonomy (src/modules/camera/types.ts). -/
inductive CameraError
  | NO_CAMERA
  | PERMISSION_DENIED
  | NOT_SUPPORTED
  | DEVICE_ERROR
deriving DecidableEq, Repr

/-- The `name` of a camera error created by `CameraManager.createError`. -/
def cameraErrorName : CameraError → String
  | .NO_CAMERA => "NO_CAMERA"
  | .PERMISSION_DENIED => "PERMISSION_DENIED"
  | .NOT_SUPPORTED => "NOT_SUPPORTED"
  | .DEVICE_ERROR => "DEVICE_ERROR"

/-- A thrown platform error, observable through its `name` field. -/
structure JSError where
  name : String
deriving DecidableEq, Repr

/-- A `MediaStream`; `videoTrack` is the `deviceId` reported by the settings
of its first video track, `none` when the stream has no video track. -/
structure MediaStream where
  videoTrack : Option String
deriving DecidableEq, Repr

/-- `CameraState` (src/modules/camera/types.ts). -/
structure CameraState where
  stream : Option MediaStream
  isActive : Bool
  deviceId : Option String
deriving DecidableEq, Repr

/-- The `CameraManager` instance fields: its `state` plus the privately held
attached video element (modelled by whether one is attached). -/
structure CameraManager where
  state : CameraState
  videoElement : Bool
deriving DecidableEq, Repr

/-- `CameraManager.handleStreamError`: categorize a stream-acquisition
fault by its `name`. -/
def handleStreamError (e : JSError) : CameraError :=
  if e.name = "NotAllowedError" || e.name = "PermissionDeniedError" then
    .PERMISSION_DENIED
  else if e.name = "NotFoundError" || e.name = "DevicesNotFoundError" then
    .NO_CAMERA
  else if e.name = "NotSupportedError" then
    .NOT_SUPPORTED
  else
    .DEVICE_ERROR

/-- Observable events of the workflow, in source order. -/
inductive Ev
  | availabilityCheck
  | streamRequest
  | cameraStop
  | renderIdle
  | renderCamera
  | renderCaptured
  | renderProcessing
  | renderResults
  | renderError (msg : String)
  | engineInit
  | recognize
  | locationStart
  | locationSettled
deriving DecidableEq, Repr

/-- `CameraManager.requestCameraAccess`: fail with `NOT_SUPPORTED` when
`navigator.mediaDevices?.getUserMedia` is absent (before any stream
request); otherwise issue the stream request; on success store the stream,
set `isActive`, and read the device id off the first video track (an empty
id is coerced to `null` by `|| null`; with no video track the previous id is
kept); on failure map the fault through `handleStreamError`. -/
def requestCameraAccess (m : CameraManager) (hasGetUserMedia : Bool)
    (outcome : Except JSError MediaStream) :
    Except CameraError CameraManager × List Ev :=
  if !hasGetUserMedia then (.error .NOT_SUPPORTED, [])
  else
    match outcome with
    | .error e => (.error (handleStreamError e), [.streamRequest])
    | .ok st =>
      let d : Option String :=
        match st.videoTrack with
        | none => m.state.deviceId
        | some dev => if dev = "" then none else some dev
      (.ok ⟨⟨some st, true, d⟩, m.videoElement⟩, [.streamRequest])

/-- `CameraManager.attachToVideoElement`: requires an active stream,
then binds the sink. -/
def attachToVideoElement (m : CameraManager) : Except String CameraManager :=
  match m.state.stream with
  | none => .error "No active camera stream"
  | some _ => .ok { m with videoElement := true }

/-- `CameraManager.capturePhoto`: requires an attached video element and an
active stream; fails when the canvas context cannot be created; otherwise
returns the snapshot (supplied by the environment). -/
def capturePhoto (m : CameraManager) (ctxOk : Bool) (img : Nat × Nat) :
    Except String (Nat × Nat) :=
  if !m.videoElement then .error "No video element attached"
  else if m.state.stream.isNone || !m.state.isActive then
    .error "Camera is not active"
  else if !ctxOk then .error "Failed to get canvas context"
  else .ok img

/-- `CameraManager.stopCamera`: stop all tracks, null the stream, detach the
sink, reset `isActive` and `deviceId`.  Total (the source never throws). -/
def stopCamera (m : CameraManager) : CameraManager :=
  let st := if m.state.stream.isSome then { m.state with stream := none } else m.state
  let m1 := if m.videoElement then { m with state := st, videoElement := false }
            else { m with state := st }
  { m1 with state := { m1.state with isActive := false, deviceId := none } }

/-- `CameraManager.isActive`. -/
def camIsActive (m : CameraManager) : Bool :=
  m.state.isActive

/-- The fully released camera: no stream, inactive, no device, no sink. -/
def clearedCamera : CameraManager :=
  ⟨⟨none, false, none⟩, false⟩

/- ===== errors util (src/utils/errors.ts) ===== -/

/-- OCR error taxonomy (src/modules/ocr/types.ts). -/
inductive OCRError
  | INITIALIZATION_FAILED
  | PROCESSING_FAILED
  | NO_TEXT_FOUND
  | INVALID_IMAGE
deriving DecidableEq, Repr

/-- The `name` of an OCR error created by `OCREngine.createError`. -/
def ocrErrorName : OCRError → String
  | .INITIALIZATION_FAILED => "INITIALIZATION_FAILED"
  | .PROCESSING_FAILED => "PROCESSING_FAILED"
  | .NO_TEXT_FOUND => "NO_TEXT_FOUND"
  | .INVALID_IMAGE => "INVALID_IMAGE"

/-- `ERROR_MESSAGES` lookup by error name; `none` when the name is not an
application error type. -/
def ERROR_MESSAGES (name : String) : Option String :=
  if name = "NO_CAMERA" then
    some "No camera detected. Please connect a camera and try again."
  else if name = "PERMISSION_DENIED" then
    some "Camera access denied. Please allow camera access in your browser settings and refresh the page."
  else if name = "NOT_SUPPORTED" then
    some "Your browser doesn\x27t support camera access. Please use Chrome, Firefox, Safari, or Edge."
  else if name = "DEVICE_ERROR" then
    some "Camera error occurred. Please check your camera and try again."
  else if name = "INITIALIZATION_FAILED" then
    some "Failed to initialize OCR. Please refresh the page and try again."
  else if name = "PROCESSING_FAILED" then
    some "Failed to process image. Please try again with a different image."
  else if name = "NO_TEXT_FOUND" then
    some "No text found in the image. Try capturing a clearer image with better lighting and visible text."
  else if name = "INVALID_IMAGE" then
    some "Invalid image format. Please capture a new photo."
  else none

/-- `isAppError` applied to a thrown `Error`: its `name` is a known type. -/
def isAppError (name : String) : Bool :=
  (ERROR_MESSAGES name).isSome

/-- `getErrorMessage` applied to a thrown `Error`: look its `name` up, with
the generic fallback message. -/
def getErrorMessage (name : String) : String :=
  (ERROR_MESSAGES name).getD "An unexpected error occurred. Please try again."

/- ===== OCREngine (src/modules/ocr/OCREngine.ts) ===== -/

/-- `OCRProgress.status` values (src/modules/ocr/types.ts). -/
inductive OCRStatus
  | loading
  | initializing
  | recognizing
  | completed
  | error
deriving DecidableEq, Repr

/-- An `OCRProgress` report. -/
structure OCRProgress where
  status : OCRStatus
  progress : Nat
  message : String
deriving DecidableEq, Repr

/-- An `OCRResult` (src/modules/ocr/types.ts).  Tesseract confidence is
carried through unmodified; it is modelled as a natural number. -/
structure OCRResult where
  text : String
  confidence : Nat
  language : String
deriving DecidableEq, Repr

/-- The `OCREngine` instance fields: whether a worker is held and the
`isInitialized` flag. -/
structure OCREngine where
  worker : Bool
  isInitialized : Bool
deriving DecidableEq, Repr

/-- `OCREngine.isReady`. -/
def isReady (eng : OCREngine) : Bool :=
  eng.isInitialized && eng.worker

/-- What `worker.recognize` resolves to on success. -/
structure RawRecognition where
  text : String
  confidence : Nat
deriving DecidableEq, Repr

/-- A fault of the recognition call, observable through its `name` (the
`catch` block in `recognizeText` dispatches on `error.name`). -/
structure WorkerFault where
  name : String
deriving DecidableEq, Repr

/-- Errors thrown by `OCREngine.recognizeText`: the plain precondition
`Error` when the engine is not initialized, or a taxonomy error. -/
inductive RecError
  | notInitialized
  | ocr (e : OCRError)
deriving DecidableEq, Repr

/-- The `name` carried by an error thrown from `recognizeText`. -/
def recErrorName : RecError → String
  | .notInitialized => "Error"
  | .ocr e => ocrErrorName e

/-- `OCREngine.initialize`, given whether `createWorker` succeeds: a no-op
when already initialized with a worker; on success the engine holds a
worker and is initialized; on failure it is left as it was and
`INITIALIZATION_FAILED` is thrown.  The intermediate logger events relayed
from the worker are not modelled; the two reports written directly by
`initialize` are. -/
def engineInitialize (eng : OCREngine) (ok : Bool) :
    Except OCRError OCREngine × List OCRProgress :=
  if eng.isInitialized && eng.worker then (.ok eng, [])
  else if ok then
    (.ok ⟨true, true⟩,
     [⟨.loading, 0, "Loading OCR engine..."⟩,
      ⟨.initializing, 100, "OCR engine ready"⟩])
  else
    (.error .INITIALIZATION_FAILED,
     [⟨.loading, 0, "Loading OCR engine..."⟩,
      ⟨.error, 0, "Failed to initialize OCR engine"⟩])

/-- `OCREngine.recognizeText`, given the outcome of `worker.recognize` and
the `language` argument (the source default is `"eng"`).  Returns the
result or thrown error, paired with the `OCRProgress` reports emitted, in
order.  Mirrors the source control flow: the precondition check; the
`recognizing`/0 report; on worker success the `completed`/100 report and
only then the empty-text check throwing `NO_TEXT_FOUND`; in the catch
block any error named `NO_TEXT_FOUND` is rethrown as-is, every other fault
reports an `error` progress and becomes `PROCESSING_FAILED`. -/
def recognizeText (eng : OCREngine)
    (workerOutcome : Except WorkerFault RawRecognition) (language : String) :
    Except RecError OCRResult × List OCRProgress :=
  if !eng.worker || !eng.isInitialized then (.error .notInitialized, [])
  else
    let startEv : OCRProgress := ⟨.recognizing, 0, "Processing image..."⟩
    match workerOutcome with
    | .error e =>
      if e.name = "NO_TEXT_FOUND" then
        (.error (.ocr .NO_TEXT_FOUND), [startEv])
      else
        (.error (.ocr .PROCESSING_FAILED),
         [startEv, ⟨.error, 0, "Failed to process image"⟩])
    | .ok r =>
      let doneEv : OCRProgress := ⟨.completed, 100, "Text extraction complete"⟩
      if jsTrim r.text = "" then
        (.error (.ocr .NO_TEXT_FOUND), [startEv, doneEv])
      else
        (.ok ⟨r.text, r.confidence, language⟩, [startEv, doneEv])

/-- `recognizeText` with the `language` parameter left at its default. -/
def recognizeTextDefault (eng : OCREngine)
    (workerOutcome : Except WorkerFault RawRecognition) :
    Except RecError OCRResult × List OCRProgress :=
  recognizeText eng workerOutcome "eng"

/- ===== OCRInterface (src/modules/ui/OCRInterface.ts) ===== -/

/-- A geolocation fix.  Coordinates are only stored and displayed, never
computed with, so they are modelled as integers. -/
structure Location where
  latitude : Int
  longitude : Int
deriving DecidableEq, Repr

/-- The view currently rendered into the container.  `error` carries the
message shown by `renderError`; the stage taxonomy of the specification maps
onto these views one-for-one (Idle, CameraActive, PhotoCaptured, Processing,
Results, Error). -/
inductive View
  | idle
  | camera
  | captured
  | processing
  | results
  | error (msg : String)
deriving DecidableEq, Repr

/-- The `OCRInterface` instance fields together with the rendered view. -/
structure OCRInterface where
  cameraManager : CameraManager
  ocrEngine : OCREngine
  capturedImageData : Option (Nat × Nat)
  lastResult : Option OCRResult
  extractedNumbers : List String
  isStartingCamera : Bool
  capturedLocation : Option Location
  view : View
deriving DecidableEq, Repr

/-- `OCRInterface.getCaptureLocation`: `null` when geolocation is
unsupported, `null` when `getCurrentPosition` rejects (timeout included),
the coordinates otherwise.  Never throws. -/
def getCaptureLocation (supported : Bool)
    (outcome : Except Unit Location) : Option Location :=
  if !supported then none
  else
    match outcome with
    | .error _ => none
    | .ok l => some l

deriving instance DecidableEq for Except

/-- Environment of one `handleStartCamera` run: whether `getUserMedia`
exists, whether device enumeration finds a video input, whether the preview
video element is found in the DOM, and the outcomes of the two
`getUserMedia` attempts (back camera, then front camera fallback). -/
structure StartCameraEnv where
  hasGetUserMedia : Bool
  videoInputs : Bool
  videoFound : Bool
  backOutcome : Except JSError MediaStream
  frontOutcome : Except JSError MediaStream
deriving DecidableEq, Repr

/-- `CameraManager.checkCameraAvailability`: the capability exists and at
least one video input device is enumerable; enumeration failure counts as
no device. -/
def checkCameraAvailability (env : StartCameraEnv) : Bool :=
  env.hasGetUserMedia && env.videoInputs

/-- The state reached when `handleStartCamera` catches an error: the
message is rendered first, then `stopCamera` runs (this order is the
source order of the catch block). -/
def startCameraCatch (s : OCRInterface) (msg : String) (pre : List Ev) :
    OCRInterface × List Ev :=
  ({ s with view := .error msg, cameraManager := stopCamera s.cameraManager,
            isStartingCamera := false },
   pre ++ [.renderError msg, .cameraStop])

/-- `OCRInterface.handleStartCamera`: a silent no-op while a previous start
is in flight; otherwise set the single-flight flag, check availability
(render an error and stop without any stream request when unavailable),
render the camera view, find the preview element, request access with the
back camera and fall back to the front camera once, attach the stream; any
caught error is rendered (app-error messages through `getErrorMessage`,
a generic message otherwise) and then the camera is stopped; the flag is
cleared in `finally`. -/
def handleStartCamera (s : OCRInterface) (env : StartCameraEnv) :
    OCRInterface × List Ev :=
  if s.isStartingCamera then (s, [])
  else
    let noCamMsg :=
      "No camera detected. Please ensure your device has a camera and try again."
    if !checkCameraAvailability env then
      ({ s with view := .error noCamMsg, isStartingCamera := false },
       [.availabilityCheck, .renderError noCamMsg])
    else
      let pre : List Ev := [.availabilityCheck, .renderCamera]
      if !env.videoFound then
        startCameraCatch s "Failed to start camera" pre
      else
        match requestCameraAccess s.cameraManager env.hasGetUserMedia env.backOutcome with
        | (.ok m1, evs1) =>
          match attachToVideoElement m1 with
          | .ok m2 =>
            ({ s with cameraManager := m2, view := .camera, isStartingCamera := false },
             pre ++ evs1)
          | .error _ =>
            startCameraCatch { s with cameraManager := m1 }
              "Failed to start camera" (pre ++ evs1)
        | (.error _, evs1) =>
          match requestCameraAccess s.cameraManager env.hasGetUserMedia env.frontOutcome with
          | (.ok m1, evs2) =>
            match attachToVideoElement m1 with
            | .ok m2 =>
              ({ s with cameraManager := m2, view := .camera, isStartingCamera := false },
               pre ++ evs1 ++ evs2)
            | .error _ =>
              startCameraCatch { s with cameraManager := m1 }
                "Failed to start camera" (pre ++ evs1 ++ evs2)
          | (.error e2, evs2) =>
            let msg :=
              if isAppError (cameraErrorName e2) then getErrorMessage (cameraErrorName e2)
              else "Failed to start camera"
            startCameraCatch s msg (pre ++ evs1 ++ evs2)

/-- Environment of one `handleCapture` run: whether the capture canvas
context is available, and the snapshot the video frame yields. -/
structure CaptureEnv where
  ctxOk : Bool
  frame : Nat × Nat
deriving DecidableEq, Repr

/-- The message rendered when `handleCapture` catches an error. -/
def captureFailMsg : String :=
  "Failed to capture photo. Please try again."

/-- `OCRInterface.handleCapture`: capture a photo, then stop the camera,
then render the captured view; on any capture error only render the
failure message (the camera is not stopped in the catch block). -/
def handleCapture (s : OCRInterface) (env : CaptureEnv) :
    OCRInterface × List Ev :=
  match capturePhoto s.cameraManager env.ctxOk env.frame with
  | .ok img =>
    ({ s with capturedImageData := some img,
              cameraManager := stopCamera s.cameraManager, view := .captured },
     [.cameraStop, .renderCaptured])
  | .error _ =>
    ({ s with view := .error captureFailMsg }, [.renderError captureFailMsg])

/-- Environment of one `handleProcessOCR` run: geolocation support and
outcome, the outcome of engine initialization if it is needed, canvas
context creation, and the outcome of `worker.recognize`. -/
structure ProcessEnv where
  geoSupported : Bool
  geoOutcome : Except Unit Location
  initOk : Bool
  ctxOk : Bool
  workerOutcome : Except WorkerFault RawRecognition
deriving DecidableEq, Repr

/-- Message for an error caught by `handleProcessOCR`: taxonomy errors are
looked up, anything else falls back to the generic message. -/
def processCatchMsg (name : String) : String :=
  if isAppError name then getErrorMessage name else "OCR processing failed"

/-- `OCRInterface.handleProcessOCR`: require a captured image, render the
processing view, start the location lookup, lazily initialize the engine,
build the canvas, recognize, store the result, await the location outcome,
and render the results view (which recomputes `extractedNumbers` from the
result text).  Any caught error is rendered with `processCatchMsg`; on the
failure paths the location promise is never awaited and `capturedLocation`
is left unchanged.  The camera manager is never touched. -/
def handleProcessOCR (s : OCRInterface) (env : ProcessEnv) :
    OCRInterface × List Ev :=
  match s.capturedImageData with
  | none =>
    ({ s with view := .error "No image to process" },
     [.renderError "No image to process"])
  | some _ =>
    let pre : List Ev := [.renderProcessing, .locationStart]
    let initStep : Except OCRError OCREngine × List Ev :=
      if isReady s.ocrEngine then (.ok s.ocrEngine, [])
      else
        match (engineInitialize s.ocrEngine env.initOk).1 with
        | .ok e => (.ok e, [.engineInit])
        | .error e => (.error e, [.engineInit])
    match initStep with
    | (.error e, evs) =>
      let msg := processCatchMsg (ocrErrorName e)
      ({ s with view := .error msg }, pre ++ evs ++ [.renderError msg])
    | (.ok eng, evs) =>
      if !env.ctxOk then
        let msg := processCatchMsg "Error"
        ({ s with ocrEngine := eng, view := .error msg },
         pre ++ evs ++ [.renderError msg])
      else
        match (recognizeText eng env.workerOutcome "eng").1 with
        | .error e =>
          let msg := processCatchMsg (recErrorName e)
          ({ s with ocrEngine := eng, view := .error msg },
           pre ++ evs ++ [.recognize, .renderError msg])
        | .ok r =>
          ({ s with ocrEngine := eng, lastResult := some r,
                    capturedLocation := getCaptureLocation env.geoSupported env.geoOutcome,
                    extractedNumbers := extractNumberSequences r.text,
                    view := .results },
           pre ++ evs ++ [.recognize, .locationSettled, .renderResults])

/-- `OCRInterface.handleReset`: clear the captured image, the last result
and the captured location, and render the idle view.  The
`extractedNumbers` field is not assigned by the source. -/
def handleReset (s : OCRInterface) : OCRInterface × List Ev :=
  ({ s with capturedImageData := none, lastResult := none,
            capturedLocation := none, view := .idle },
   [.renderIdle])

/- ===== Sample states shared by the closed theorems below ===== -/

/-- A camera manager with a live stream, active flag, device id and sink. -/
def camActive : CameraManager :=
  ⟨⟨some ⟨some "d"⟩, true, some "d"⟩, true⟩

/-- The interface freshly loaded, idle view. -/
def idleIface : OCRInterface :=
  ⟨clearedCamera, ⟨false, false⟩, none, none, [], false, none, .idle⟩

/-- The interface during the camera view, stream live. -/
def cameraIface : OCRInterface :=
  ⟨camActive, ⟨false, false⟩, none, none, [], false, none, .camera⟩

/-- The interface holding a captured photo, engine already initialized. -/
def capturedIface : OCRInterface :=
  ⟨clearedCamera, ⟨true, true⟩, some (4, 3), none, [], false, none, .captured⟩

/-- The interface in the results view with one extracted token. -/
def resultsIface : OCRInterface :=
  ⟨clearedCamera, ⟨true, true⟩, some (2, 2),
   some ⟨"order 12 34 5678", 90, "eng"⟩, ["12 34 5678"], false,
   some ⟨1, 2⟩, .results⟩

/- ===== Helper lemmas ===== -/

/-- `stopCamera` always yields the fully released camera. -/
theorem stopCamera_eq_cleared (m : CameraManager) : stopCamera m = clearedCamera := by
  obtain ⟨⟨st, act, dev⟩, ve⟩ := m
  cases st <;> cases ve <;> rfl

/-- Every camera taxonomy error name is an application error. -/
theorem isAppError_cameraErrorName (c : CameraError) :
    isAppError (cameraErrorName c) = true := by
  cases c <;> rfl

/- ===== C8 ===== -/

/-- C8: stopping the camera is idempotent and total: it always results in
the released state with the stream and device id nulled and `isActive`
false, a second stop changes nothing, stopping with no active stream
leaves the `CameraState` unchanged, and any positive number of stops lands
in the released state. -/
theorem stopCamera_idempotent :
    (∀ m : CameraManager, (stopCamera m).state = ⟨none, false, none⟩) ∧
    (∀ m : CameraManager, stopCamera (stopCamera m) = stopCamera m) ∧
    (∀ m : CameraManager,
        m.state.stream = none → m.state.isActive = false → m.state.deviceId = none →
        (stopCamera m).state = m.state) ∧
    (∀ (m : CameraManager) (n : Nat),
        (stopCamera^[n + 1] m).state = ⟨none, false, none⟩) := by
  refine ⟨?_, ?_, ?_, ?_⟩
  · intro m; rw [stopCamera_eq_cleared]; rfl
  · intro m; rw [stopCamera_eq_cleared, stopCamera_eq_cleared]
  · intro m h1 h2 h3
    rw [stopCamera_eq_cleared]
    obtain ⟨⟨st, act, dev⟩, ve⟩ := m
    simp only at h1 h2 h3
    rw [h1, h2, h3]; rfl
  · intro m n
    rw [Function.iterate_succ_apply, stopCamera_eq_cleared]
    induction n with
    | zero => rfl
    | succ k ih => rw [Function.iterate_succ_apply, stopCamera_eq_cleared]; exact ih

/-- C8 witness: stopping an inactive camera leaves its state unchanged. -/
theorem stopCamera_idempotent_witness :
    (stopCamera clearedCamera).state = clearedCamera.state :=
  stopCamera_idempotent.2.2.1 clearedCamera rfl rfl rfl

/- ===== C1 ===== -/

/-- C1 counterexample: resetting from the results view does not clear the
extracted tokens list; it keeps its previous non-empty value. -/
theorem handleReset_retains_tokens_cex :
    (handleReset resultsIface).1.extractedNumbers = ["12 34 5678"] ∧
    ["12 34 5678"] ≠ ([] : List String) :=
  ⟨rfl, by decide⟩

/-- C1 amended: resetting yields the idle view with the captured frame,
the recognition result and the location cleared (and no error message,
since the rendered view is the idle one), while the extracted tokens list
keeps its previous value. -/
theorem handleReset_clears_session_fields (s : OCRInterface) :
    (handleReset s).1.view = .idle ∧
    (handleReset s).1.capturedImageData = none ∧
    (handleReset s).1.lastResult = none ∧
    (handleReset s).1.capturedLocation = none ∧
    (handleReset s).1.extractedNumbers = s.extractedNumbers :=
  ⟨rfl, rfl, rfl, rfl, rfl⟩

/- ===== C2 ===== -/

/-- C2: on the 8-character run of a plus sign, one digit and six spaces the
extractor keeps the token "+1", although its digit count ignoring
whitespace is 1; the final filter counts non-whitespace characters rather
than digits, contradicting its own comment. -/
theorem extractNumberSequences_nonwhitespace_count_bug :
    extractNumberSequences "+1      " = ["+1"] ∧ digitCount "+1" = 1 :=
  ⟨rfl, rfl⟩

/- ===== C7 ===== -/

/-- C7 counterexample: a stream-acquisition fault named `NotSupportedError`
(the capability being present) is mapped to `NOT_SUPPORTED`, not to
`DEVICE_ERROR` as the claim requires for faults that are neither denials
nor missing devices. -/
theorem requestCameraAccess_not_supported_cex :
    requestCameraAccess clearedCamera true (.error ⟨"NotSupportedError"⟩) =
      (.error .NOT_SUPPORTED, [.streamRequest]) ∧
    CameraError.NOT_SUPPORTED ≠ CameraError.DEVICE_ERROR :=
  ⟨rfl, by decide⟩

/-- C7 amended: the failure kind of a camera access request is
`NOT_SUPPORTED` when the capability is absent (with no stream request
issued); otherwise the request is issued and a fault is mapped by name:
denial names to `PERMISSION_DENIED`, missing-device names to `NO_CAMERA`,
`NotSupportedError` also to `NOT_SUPPORTED`, and every remaining fault to
`DEVICE_ERROR`. -/
theorem requestCameraAccess_error_taxonomy :
    (∀ (m : CameraManager) (o : Except JSError MediaStream),
        requestCameraAccess m false o = (.error .NOT_SUPPORTED, [])) ∧
    (∀ (m : CameraManager) (e : JSError),
        requestCameraAccess m true (.error e) =
          (.error (handleStreamError e), [.streamRequest])) ∧
    (∀ e : JSError, e.name = "NotAllowedError" ∨ e.name = "PermissionDeniedError" →
        handleStreamError e = .PERMISSION_DENIED) ∧
    (∀ e : JSError, e.name = "NotFoundError" ∨ e.name = "DevicesNotFoundError" →
        handleStreamError e = .NO_CAMERA) ∧
    (∀ e : JSError, e.name = "NotSupportedError" → handleStreamError e = .NOT_SUPPORTED) ∧
    (∀ e : JSError, e.name ≠ "NotAllowedError" → e.name ≠ "PermissionDeniedError" →
        e.name ≠ "NotFoundError" → e.name ≠ "DevicesNotFoundError" →
        e.name ≠ "NotSupportedError" → handleStreamError e = .DEVICE_ERROR) := by
  refine ⟨?_, ?_, ?_, ?_, ?_, ?_⟩
  · intro m o; rfl
  · intro m e; rfl
  · intro e h; rcases h with h | h <;> simp [handleStreamError, h]
  · intro e h; rcases h with h | h <;> simp [handleStreamError, h]
  · intro e h; simp [handleStreamError, h]
  · intro e h1 h2 h3 h4 h5; simp [handleStreamError, h1, h2, h3, h4, h5]

/-- C7 witness: concrete faults of each kind. -/
theorem requestCameraAccess_error_taxonomy_witness :
    handleStreamError ⟨"NotAllowedError"⟩ = .PERMISSION_DENIED ∧
    handleStreamError ⟨"NotFoundError"⟩ = .NO_CAMERA ∧
    handleStreamError ⟨"NotSupportedError"⟩ = .NOT_SUPPORTED ∧
    handleStreamError ⟨"AbortError"⟩ = .DEVICE_ERROR :=
  ⟨requestCameraAccess_error_taxonomy.2.2.1 ⟨"NotAllowedError"⟩ (Or.inl rfl),
   requestCameraAccess_error_taxonomy.2.2.2.1 ⟨"NotFoundError"⟩ (Or.inl rfl),
   requestCameraAccess_error_taxonomy.2.2.2.2.1 ⟨"NotSupportedError"⟩ rfl,
   requestCameraAccess_error_taxonomy.2.2.2.2.2 ⟨"AbortError"⟩ (by decide) (by decide)
     (by decide) (by decide) (by decide)⟩

/- ===== C4 ===== -/

/-- C4 counterexample: a recognition fault whose `name` is `NO_TEXT_FOUND`
is rethrown as `NO_TEXT_FOUND` by the catch block instead of becoming
`PROCESSING_FAILED`. -/
theorem recognizeText_spoofed_name_cex :
    (recognizeText ⟨true, true⟩ (.error ⟨"NO_TEXT_FOUND"⟩) "eng").1 =
      .error (.ocr .NO_TEXT_FOUND) ∧
    RecError.ocr .NO_TEXT_FOUND ≠ RecError.ocr .PROCESSING_FAILED :=
  ⟨rfl, by decide⟩

/-- C4 amended: on an initialized engine, empty or whitespace-only
recognized text always fails with `NO_TEXT_FOUND` and never with
`PROCESSING_FAILED`; any recognition fault whose name is not
`NO_TEXT_FOUND` fails with `PROCESSING_FAILED`, and a fault carrying the
`NO_TEXT_FOUND` name is rethrown as `NO_TEXT_FOUND`. -/
theorem recognizeText_error_taxonomy :
    (∀ (eng : OCREngine) (r : RawRecognition) (lang : String),
        isReady eng = true → jsTrim r.text = "" →
        (recognizeText eng (.ok r) lang).1 = .error (.ocr .NO_TEXT_FOUND) ∧
        (recognizeText eng (.ok r) lang).1 ≠ .error (.ocr .PROCESSING_FAILED)) ∧
    (∀ (eng : OCREngine) (e : WorkerFault) (lang : String),
        isReady eng = true → e.name ≠ "NO_TEXT_FOUND" →
        (recognizeText eng (.error e) lang).1 = .error (.ocr .PROCESSING_FAILED)) ∧
    (∀ (eng : OCREngine) (e : WorkerFault) (lang : String),
        isReady eng = true → e.name = "NO_TEXT_FOUND" →
        (recognizeText eng (.error e) lang).1 = .error (.ocr .NO_TEXT_FOUND)) := by
  refine ⟨?_, ?_, ?_⟩
  · intro eng r lang hr ht
    obtain ⟨hi, hw⟩ := Bool.and_eq_true_iff.mp hr
    refine ⟨?_, ?_⟩ <;> simp [recognizeText, hi, hw, ht]
  · intro eng e lang hr hn
    obtain ⟨hi, hw⟩ := Bool.and_eq_true_iff.mp hr
    simp [recognizeText, hi, hw, hn]
  · intro eng e lang hr hn
    obtain ⟨hi, hw⟩ := Bool.and_eq_true_iff.mp hr
    simp [recognizeText, hi, hw, hn]

/-- C4 witness: whitespace-only text yields `NO_TEXT_FOUND`; a worker
crash yields `PROCESSING_FAILED`. -/
theorem recognizeText_error_taxonomy_witness :
    (recognizeText ⟨true, true⟩ (.ok ⟨"   ", 50⟩) "eng").1 =
      .error (.ocr .NO_TEXT_FOUND) ∧
    (recognizeText ⟨true, true⟩ (.error ⟨"WorkerCrash"⟩) "eng").1 =
      .error (.ocr .PROCESSING_FAILED) :=
  ⟨(recognizeText_error_taxonomy.1 ⟨true, true⟩ ⟨"   ", 50⟩ "eng" rfl rfl).1,
   recognizeText_error_taxonomy.2.1 ⟨true, true⟩ ⟨"WorkerCrash"⟩ "eng" rfl (by decide)⟩

/- ===== C9 ===== -/

/-- C9: whenever `recognizeText` succeeds, the `language` field of the
result is exactly the language argument of the call, regardless of the
recognized content; with the parameter left at its default the field is
`"eng"`. -/
theorem recognizeText_language_passthrough :
    (∀ (eng : OCREngine) (oc : Except WorkerFault RawRecognition)
        (lang : String) (res : OCRResult),
        (recognizeText eng oc lang).1 = .ok res → res.language = lang) ∧
    (∀ (eng : OCREngine) (oc : Except WorkerFault RawRecognition) (res : OCRResult),
        (recognizeTextDefault eng oc).1 = .ok res → res.language = "eng") := by
  have main : ∀ (eng : OCREngine) (oc : Except WorkerFault RawRecognition)
      (lang : String) (res : OCRResult),
      (recognizeText eng oc lang).1 = .ok res → res.language = lang := by
    intro eng oc lang res h
    cases hw : eng.worker <;> cases hi : eng.isInitialized <;>
      simp [recognizeText, hw, hi] at h
    cases oc with
    | error e =>
      by_cases hn : e.name = "NO_TEXT_FOUND" <;> simp [hn] at h
    | ok r =>
      by_cases ht : jsTrim r.text = "" <;> simp [ht] at h
      rw [← h]
  exact ⟨main, fun eng oc res h => main eng oc "eng" res h⟩

/-- C9 witness: a successful call with language "swe". -/
theorem recognizeText_language_passthrough_witness :
    OCRResult.language ⟨"hello 123", 77, "swe"⟩ = "swe" :=
  recognizeText_language_passthrough.1 ⟨true, true⟩ (.ok ⟨"hello 123", 77⟩) "swe"
    ⟨"hello 123", 77, "swe"⟩ rfl

/- ===== C10 ===== -/

/-- C10: on an initialized engine, when the worker resolves with text that
trims to empty, the emitted progress reports are exactly the
`recognizing`/0 report followed by the `completed`/100 report — so the
completion report is emitted before the call fails with `NO_TEXT_FOUND`
(the empty-text check runs after the completion report). -/
theorem recognizeText_completed_before_no_text_found :
    ∀ (eng : OCREngine) (r : RawRecognition) (lang : String),
      isReady eng = true → jsTrim r.text = "" →
      recognizeText eng (.ok r) lang =
        (.error (.ocr .NO_TEXT_FOUND),
         [⟨.recognizing, 0, "Processing image..."⟩,
          ⟨.completed, 100, "Text extraction complete"⟩]) := by
  intro eng r lang hr ht
  obtain ⟨hi, hw⟩ := Bool.and_eq_true_iff.mp hr
  simp [recognizeText, hi, hw, ht]

/-- C10 witness: whitespace-only recognized text on a ready engine. -/
theorem recognizeText_completed_before_no_text_found_witness :
    recognizeText ⟨true, true⟩ (.ok ⟨"  ", 10⟩) "eng" =
      (.error (.ocr .NO_TEXT_FOUND),
       [⟨.recognizing, 0, "Processing image..."⟩,
        ⟨.completed, 100, "Text extraction complete"⟩]) :=
  recognizeText_completed_before_no_text_found ⟨true, true⟩ ⟨"  ", 10⟩ "eng" rfl rfl

/- ===== C5 ===== -/

/-- C5: a camera-start invocation that observes the single-flight lock set
is a silent no-op — the state (lock included) is unchanged and the event
trace is empty, so no availability check, no stream request and no error
occur; when the lock is clear and the first (back-camera) access attempt
succeeds the run issues exactly one stream request. -/
theorem handleStartCamera_single_flight :
    (∀ (s : OCRInterface) (env : StartCameraEnv),
        s.isStartingCamera = true → handleStartCamera s env = (s, [])) ∧
    (∀ (s : OCRInterface) (env : StartCameraEnv) (st : MediaStream),
        s.isStartingCamera = false → checkCameraAvailability env = true →
        env.videoFound = true → env.backOutcome = .ok st →
        ((handleStartCamera s env).2.filter (fun e => e = Ev.streamRequest)).length = 1) := by
  constructor
  · intro s env h
    simp [handleStartCamera, h]
  · intro s env st hf ha hv hb
    obtain ⟨hg, _⟩ := Bool.and_eq_true_iff.mp ha
    simp [handleStartCamera, hf, ha, hv, hb, requestCameraAccess, hg,
          attachToVideoElement, List.filter]

/-- C5 witness: the locked second invocation is a no-op, the unlocked first
one issues one stream request. -/
theorem handleStartCamera_single_flight_witness :
    handleStartCamera { idleIface with isStartingCamera := true }
        ⟨true, true, true, .ok ⟨some "d"⟩, .ok ⟨some "d"⟩⟩ =
      ({ idleIface with isStartingCamera := true }, []) ∧
    ((handleStartCamera idleIface
        ⟨true, true, true, .ok ⟨some "d"⟩, .ok ⟨some "d"⟩⟩).2.filter
      (fun e => e = Ev.streamRequest)).length = 1 :=
  ⟨handleStartCamera_single_flight.1 _ _ rfl,
   handleStartCamera_single_flight.2 _ _ ⟨some "d"⟩ rfl rfl rfl rfl⟩

/- ===== C3 ===== -/

/-- C3 counterexample: a frame-capture failure (the capture canvas context
is unavailable while the stream is live) surfaces the error with no camera
stop: the camera manager is untouched, still active, and the only event is
the error render. -/
theorem handleCapture_failure_no_camera_stop_cex :
    (handleCapture cameraIface ⟨false, (4, 3)⟩).1.cameraManager.state.isActive = true ∧
    (handleCapture cameraIface ⟨false, (4, 3)⟩).2 = [.renderError captureFailMsg] ∧
    (handleCapture cameraIface ⟨false, (4, 3)⟩).1.view = .error captureFailMsg :=
  ⟨rfl, rfl, rfl⟩

/-- C3 amended: on a camera-start failure (both access attempts fail) the
camera ends released, but the error is rendered before the stop; on a
frame-capture failure the camera is not stopped at all (its manager is
unchanged and the only event is the error render); the processing handler
never touches the camera manager, so a recognition failure happens with
the camera already released by the eager stop in the capture step. -/
theorem failure_path_camera_cleanup :
    (∀ (s : OCRInterface) (env : StartCameraEnv) (e1 e2 : JSError),
        s.isStartingCamera = false → checkCameraAvailability env = true →
        env.videoFound = true → env.backOutcome = .error e1 →
        env.frontOutcome = .error e2 →
        (handleStartCamera s env).1.cameraManager = clearedCamera ∧
        (handleStartCamera s env).2 =
          [.availabilityCheck, .renderCamera, .streamRequest, .streamRequest,
           .renderError (getErrorMessage (cameraErrorName (handleStreamError e2))),
           .cameraStop]) ∧
    (∀ (s : OCRInterface) (env : CaptureEnv) (msg : String),
        capturePhoto s.cameraManager env.ctxOk env.frame = .error msg →
        (handleCapture s env).1.cameraManager = s.cameraManager ∧
        (handleCapture s env).2 = [.renderError captureFailMsg]) ∧
    (∀ (s : OCRInterface) (env : ProcessEnv),
        (handleProcessOCR s env).1.cameraManager = s.cameraManager) := by
  refine ⟨?_, ?_, ?_⟩
  · intro s env e1 e2 hf ha hv hb hfr
    obtain ⟨hg, _⟩ := Bool.and_eq_true_iff.mp ha
    constructor
    · simp [handleStartCamera, hf, ha, hv, hb, hfr, requestCameraAccess, hg,
            startCameraCatch, stopCamera_eq_cleared]
    · simp [handleStartCamera, hf, ha, hv, hb, hfr, requestCameraAccess, hg,
            startCameraCatch, isAppError_cameraErrorName]
  · intro s env msg h
    constructor <;> simp [handleCapture, h]
  · intro s env
    unfold handleProcessOCR
    split
    · rfl
    · dsimp only
      split
      · rfl
      · split
        · rfl
        · split <;> rfl

/-- C3 witness: a concrete double access failure ends with the camera
released after the error render; a concrete capture failure leaves the
camera manager untouched; a concrete recognition failure leaves the camera
manager untouched. -/
theorem failure_path_camera_cleanup_witness :
    (handleStartCamera idleIface
        ⟨true, true, true, .error ⟨"NotAllowedError"⟩,
         .error ⟨"NotAllowedError"⟩⟩).1.cameraManager = clearedCamera ∧
    (handleCapture cameraIface ⟨false, (4, 3)⟩).1.cameraManager =
      cameraIface.cameraManager ∧
    (handleProcessOCR capturedIface
        ⟨false, .error (), true, true,
         .error ⟨"WorkerCrash"⟩⟩).1.cameraManager = capturedIface.cameraManager :=
  ⟨(failure_path_camera_cleanup.1 idleIface
      ⟨true, true, true, .error ⟨"NotAllowedError"⟩, .error ⟨"NotAllowedError"⟩⟩
      ⟨"NotAllowedError"⟩ ⟨"NotAllowedError"⟩ rfl rfl rfl rfl rfl).1,
   (failure_path_camera_cleanup.2.1 cameraIface ⟨false, (4, 3)⟩
      "Failed to get canvas context" rfl).1,
   failure_path_camera_cleanup.2.2 capturedIface _⟩

/- ===== C6 ===== -/

/-- C6: the location lookup is best-effort.  When a processing run on a
ready engine with a captured frame succeeds at recognition, the final view
is the results view whatever the geolocation environment; the captured
location is exactly the lookup outcome, so an unsupported platform or a
failed lookup yields an absent location while still entering the results
view; and the event trace settles the location before rendering the
results.  Moreover the final view never depends on the geolocation
environment at all. -/
theorem location_lookup_best_effort :
    (∀ (s : OCRInterface) (img : Nat × Nat) (env : ProcessEnv) (r : RawRecognition),
        s.capturedImageData = some img → isReady s.ocrEngine = true →
        env.ctxOk = true → env.workerOutcome = .ok r → jsTrim r.text ≠ "" →
        (handleProcessOCR s env).1.view = .results ∧
        (handleProcessOCR s env).1.capturedLocation =
          getCaptureLocation env.geoSupported env.geoOutcome ∧
        (env.geoSupported = false → (handleProcessOCR s env).1.capturedLocation = none) ∧
        (env.geoOutcome = .error () → (handleProcessOCR s env).1.capturedLocation = none) ∧
        (handleProcessOCR s env).2 =
          [.renderProcessing, .locationStart, .recognize, .locationSettled,
           .renderResults]) ∧
    (∀ (s : OCRInterface) (env : ProcessEnv) (sup : Bool) (oc : Except Unit Location),
        (handleProcessOCR s { env with geoSupported := sup, geoOutcome := oc }).1.view =
          (handleProcessOCR s env).1.view) := by
  constructor
  · intro s img env r himg hr hctx hoc ht
    obtain ⟨hi, hw⟩ := Bool.and_eq_true_iff.mp hr
    have hready : isReady s.ocrEngine = true := hr
    refine ⟨?_, ?_, ?_, ?_, ?_⟩
    · simp [handleProcessOCR, himg, hready, hctx, hoc, recognizeText, hi, hw, ht]
    · simp [handleProcessOCR, himg, hready, hctx, hoc, recognizeText, hi, hw, ht]
    · intro hsup
      simp [handleProcessOCR, himg, hready, hctx, hoc, recognizeText, hi, hw, ht,
            getCaptureLocation, hsup]
    · intro hgeo
      cases hsup : env.geoSupported <;>
        simp [handleProcessOCR, himg, hready, hctx, hoc, recognizeText, hi, hw, ht,
              getCaptureLocation, hsup, hgeo]
    · simp [handleProcessOCR, himg, hready, hctx, hoc, recognizeText, hi, hw, ht]
  · intro s env sup oc
    unfold handleProcessOCR
    split
    · rfl
    · dsimp only
      split
      · rfl
      · split
        · rfl
        · split <;> rfl

/-- C6 witness: recognition succeeds while geolocation is unsupported and
the lookup rejects; the run still ends in the results view with no
location, settling the location before rendering. -/
theorem location_lookup_best_effort_witness :
    (handleProcessOCR capturedIface
        ⟨false, .error (), true, true, .ok ⟨"call 12 34 5678 now", 90⟩⟩).1.view =
      .results ∧
    (handleProcessOCR capturedIface
        ⟨false, .error (), true, true, .ok ⟨"call 12 34 5678 now", 90⟩⟩).1.capturedLocation =
      none ∧
    (handleProcessOCR capturedIface
        ⟨false, .error (), true, true, .ok ⟨"call 12 34 5678 now", 90⟩⟩).2 =
      [.renderProcessing, .locationStart, .recognize, .locationSettled, .renderResults] := by
  obtain ⟨h1, _, h3, _, h5⟩ :=
    location_lookup_best_effort.1 capturedIface (4, 3)
      ⟨false, .error (), true, true, .ok ⟨"call 12 34 5678 now", 90⟩⟩
      ⟨"call 12 34 5678 now", 90⟩ rfl rfl rfl rfl (by decide)
  exact ⟨h1, h3 rfl, h5⟩
